import Mathlib

/-!
Shallow embedding of the adaptive video playback core of the repository
(quality-label normalization, initial source selection, automatic fallback on
fatal playback errors, source attachment, seeking, progress emission, watch
history completion and remaining-time displays, upcoming-episode gating).

JavaScript numbers are modelled as rationals (`ℚ`); `NaN`-able media fields
are modelled with `Option ℚ`.  JavaScript string operations used by the code
(`toLowerCase`, `includes`, `replace(/[^0-9]/g, "")`, `match(/\d/)`) are given
direct executable counterparts; the inputs involved are ASCII.
-/

/-- JS `String.prototype.toLowerCase` (ASCII). -/
def strToLower (s : String) : String := String.mk (s.data.map Char.toLower)

/-- Does `pat` occur as a contiguous sublist of `s`? -/
def hasSubList (pat : List Char) : List Char → Bool
  | [] => pat.isEmpty
  | c :: rest => pat.isPrefixOf (c :: rest) || hasSubList pat rest

/-- JS `s.includes(pat)`. -/
def strContains (s pat : String) : Bool := hasSubList pat.data s.data

/-- JS `s.replace(/[^0-9]/g, "")`: keep only decimal digits. -/
def digitsOf (s : String) : String := String.mk (s.data.filter Char.isDigit)

/-- JS `s.match(/\d/)` truthiness: does `s` contain a decimal digit? -/
def hasDigit (s : String) : Bool := s.data.any Char.isDigit

/-- Quality-label normalization, from `CustomVideoPlayer.tsx` (`formatQuality`,
lines 48–67).  Note the first guard `if (!quality) return "Auto"` fires on the
empty string, so the later `lower === ""` test is unreachable. -/
def formatQuality (quality : String) : String :=
  if quality == "" then "Auto"
  else
    let lower := strToLower quality
    if lower == "unknown" || lower == "" then "SD"
    else if strContains lower "up to hd" || lower == "hd"
        || (strContains lower "hd" && !(hasDigit lower)) then "HD"
    else
      let cleanQuality := digitsOf lower
      if strContains cleanQuality "2160" || strContains lower "4k" then "4K"
      else if strContains cleanQuality "1440" || strContains lower "2k" then "2K"
      else if strContains cleanQuality "1080" then "1080p"
      else if strContains cleanQuality "720" then "720p"
      else if strContains cleanQuality "480" then "480p"
      else if strContains cleanQuality "360" then "360p"
      else if !(cleanQuality == "") then cleanQuality ++ "p"
      else "SD"

/-- A playable stream descriptor (`BackendSource`): url, transport type
(`"hls"` vs direct file), raw quality label, provider name. -/
structure BackendSource where
  url : String
  type : String
  quality : String
  provider : String
deriving DecidableEq, Repr

/-- Initial source pick, from `CustomVideoPlayer.tsx` lines 214–219 (identical
in `VideoPlayer/index.tsx` lines 72–77): first source normalizing to `"HD"`,
else first normalizing to `"1080p"`, else the first source, else none. -/
def initialSource (sources : List BackendSource) : Option BackendSource :=
  match sources.find? (fun s => formatQuality s.quality == "HD") with
  | some s => some s
  | none =>
    match sources.find? (fun s => formatQuality s.quality == "1080p") with
    | some s => some s
    | none => sources.head?

/-- The playback session state of the player component
(`CustomVideoPlayer.tsx` lines 221–233): the `useState` variables touched by
the claims, plus the media element / `hls.js` attachment they drive.  The
component has no error-state variable. -/
structure PlayerState where
  currentSource : Option BackendSource
  triedSources : List String
  isLoading : Bool
  progress : ℚ
  duration : ℚ
  currentTime : ℚ
  hlsClient : Option String
  videoSrc : String
  showQuality : Bool
deriving DecidableEq, Repr

/-- `apiResponse.sources.filter(s => !triedSources.has(s.url) && s.url !== currentSource.url)`
from `handleError` (`CustomVideoPlayer.tsx` line 303). -/
def remainingSources (sources : List BackendSource) (tried : List String)
    (curUrl : String) : List BackendSource :=
  sources.filter (fun s => !(tried.contains s.url) && s.url != curUrl)

/-- The fallback pick of `handleError` (`CustomVideoPlayer.tsx` lines 303–309):
`sHD || s1080 || remainingSources[0]`, or no pick when nothing remains. -/
def selectNextSource (sources : List BackendSource) (tried : List String)
    (curUrl : String) : Option BackendSource :=
  match (remainingSources sources tried curUrl).find?
      (fun s => formatQuality s.quality == "HD") with
  | some s => some s
  | none =>
    match (remainingSources sources tried curUrl).find?
        (fun s => formatQuality s.quality == "1080p") with
    | some s => some s
    | none => (remainingSources sources tried curUrl).head?

/-- The fatal-error handler (`CustomVideoPlayer.tsx` lines 297–312, identical
in `VideoPlayer/index.tsx` lines 155–168): record the failing url in the
tried-set, pick the next untried candidate if any, clear the loading flag.
Nothing else changes; in particular no error state is set (none exists). -/
def handleError (sources : List BackendSource) (st : PlayerState) : PlayerState :=
  match st.currentSource with
  | none => { st with isLoading := false }
  | some cur =>
    { st with
        triedSources :=
          if st.triedSources.contains cur.url then st.triedSources
          else st.triedSources ++ [cur.url]
        currentSource :=
          match selectNextSource sources st.triedSources cur.url with
          | some s => some s
          | none => st.currentSource
        isLoading := false }

/-- The source-attachment effect (`CustomVideoPlayer.tsx` lines 240–276): on a
source change, set loading, clear displayed progress, destroy any existing
`hls.js` client, reset the element, then attach the new source (an `hls.js`
client when supported, native HLS otherwise, or a direct file url).  The
returned boolean records whether an existing adaptive client was destroyed.
`hlsSupported` / `nativeHls` model `Hls.isSupported()` and
`video.canPlayType("application/vnd.apple.mpegurl")`; the media element is
assumed mounted. -/
def attachEffect (hlsSupported nativeHls : Bool) (st : PlayerState) :
    PlayerState × Bool :=
  match st.currentSource with
  | none => (st, false)
  | some src =>
    let destroyed := st.hlsClient.isSome
    let st1 := { st with
      isLoading := true, progress := 0, hlsClient := none, videoSrc := "" }
    if src.type == "hls" then
      if hlsSupported then ({ st1 with hlsClient := some src.url }, destroyed)
      else if nativeHls then ({ st1 with videoSrc := src.url }, destroyed)
      else (st1, destroyed)
    else ({ st1 with videoSrc := src.url }, destroyed)

/-- A user-requested quality switch (`QualitySelector` `onSelect`,
`CustomVideoPlayer.tsx` lines 799–810): set the chosen source and close the
menu.  The tried-set is not touched. -/
def selectQuality (st : PlayerState) (src : BackendSource) : PlayerState :=
  { st with currentSource := some src, showQuality := false }

/-- A click on the progress bar (`handleProgressBarClick`,
`CustomVideoPlayer.tsx` lines 346–356, identical in `VideoPlayer/index.tsx`
lines 202–212): no-op while the duration is unknown (`0`); otherwise clamp the
click fraction to `[0,1]`, seek to `fraction × duration` and show
`fraction × 100` percent. -/
def handleProgressBarClick (st : PlayerState) (clientX rectLeft rectWidth : ℚ) :
    PlayerState :=
  if st.duration = 0 then st
  else
    let clickX := clientX - rectLeft
    let percentage := max 0 (min (clickX / rectWidth) 1)
    let newTime := percentage * st.duration
    { st with currentTime := newTime, progress := percentage * 100 }

/-- The timing-update handler (`handleTimeUpdate`, `CustomVideoPlayer.tsx`
lines 278–284, identical in `VideoPlayer/index.tsx` lines 136–142): when the
media element reports a truthy, non-NaN duration, update the displayed
percentage and emit `(currentTime, duration)` to `onProgress`; otherwise do
nothing.  `videoDuration = none` models a NaN duration. -/
def handleTimeUpdate (videoTime : ℚ) (videoDuration : Option ℚ)
    (st : PlayerState) : PlayerState × Option (ℚ × ℚ) :=
  match videoDuration with
  | none => (st, none)
  | some d =>
    if d = 0 then (st, none)
    else ({ st with progress := videoTime / d * 100 }, some (videoTime, d))

/-- The state of the player right after mounting (`useState` initial values):
the initial pick is attached, nothing tried yet, loading. -/
def mountState (sources : List BackendSource) : PlayerState :=
  { currentSource := initialSource sources
    triedSources := []
    isLoading := true
    progress := 0
    duration := 0
    currentTime := 0
    hlsClient := none
    videoSrc := ""
    showQuality := false }

/-- One attach-then-fatal-error cycle: the selected source is attached by the
effect, then the media element reports a fatal error. -/
def failStep (hlsSupported nativeHls : Bool) (sources : List BackendSource)
    (st : PlayerState) : PlayerState :=
  handleError sources (attachEffect hlsSupported nativeHls st).1

/-- In-session resume record returned by `getVideoProgress()` and consumed by
`EpisodeSelector.tsx`. -/
structure ResumeInfo where
  id : Int
  mediaType : String
  season : Int
  episode : Int
  timestamp : ℚ
  duration : ℚ
  isCompleted : Bool
deriving DecidableEq, Repr

/-- The `progress { watched, duration }` pair of a watch-history entry. -/
structure ProgressPair where
  watched : ℚ
  duration : ℚ
deriving DecidableEq, Repr

/-- A persisted watch-history entry as read by the episode selector and the
TV details page (the fields those readers touch). -/
structure WatchHistoryItem where
  id : Int
  mediaType : String
  season : Int
  episode : Int
  progress : Option ProgressPair
  isCompleted : Bool
deriving DecidableEq, Repr

/-- The record `getEpisodeProgress` returns for an episode with progress. -/
structure EpisodeProgressView where
  progress : ℚ
  isCompleted : Bool
  isWatching : Bool
  remainingTime : Option String
deriving DecidableEq, Repr

/-- `formatDuration` from `EpisodeSelector.tsx` lines 91–96: `null` on a
missing or zero minute count, `"Hh Mm"` from 60 minutes up, else `"Mm"`. -/
def formatDuration (minutes : Option Int) : Option String :=
  match minutes with
  | none => none
  | some m =>
    if m = 0 then none
    else if 60 ≤ m then some (toString (m / 60) ++ "h " ++ toString (m % 60) ++ "m")
    else some (toString m ++ "m")

/-- The history-entry lookup predicate of `getEpisodeProgress`
(`EpisodeSelector.tsx` lines 125–127). -/
def histPred (tvId seasonNumber episodeNumber : Int) (item : WatchHistoryItem) :
    Bool :=
  item.mediaType == "tv" && item.id == tvId && item.season == seasonNumber
    && item.episode == episodeNumber

/-- `getEpisodeProgress` from `EpisodeSelector.tsx` lines 111–143: prefer the
in-session resume record when its id/season/episode match, else fall back to
the persisted history entry; an entry with no recorded progress yields
nothing. -/
def getEpisodeProgress (resumeInfo : Option ResumeInfo)
    (watchHistory : List WatchHistoryItem)
    (tvId seasonNumber episodeNumber : Int) : Option EpisodeProgressView :=
  let fromResume : Option EpisodeProgressView :=
    match resumeInfo with
    | some r =>
      if r.id == tvId && r.season == seasonNumber && r.episode == episodeNumber then
        some
          { progress := r.timestamp / r.duration * 100
            isCompleted := r.isCompleted
              || decide ((9 : ℚ)/10 ≤ r.timestamp / r.duration)
            isWatching := !r.isCompleted && decide ((0 : ℚ) < r.timestamp)
            remainingTime :=
              formatDuration (some ⌊(r.duration - r.timestamp) / 60⌋) }
      else none
    | none => none
  match fromResume with
  | some v => some v
  | none =>
    match watchHistory.find? (histPred tvId seasonNumber episodeNumber) with
    | some item =>
      match item.progress with
      | some pr =>
        let watched := pr.watched
        let duration := pr.duration
        let remaining := max 0 (duration - watched)
        some
          { progress := watched / duration * 100
            isCompleted := item.isCompleted
              || decide ((9 : ℚ)/10 ≤ watched / duration)
            isWatching := !item.isCompleted && decide ((0 : ℚ) < watched)
            remainingTime := formatDuration (some ⌊remaining / 60⌋) }
      | none => none
    | none => none

/-- The minute count of the remaining-time badge on the TV details page
(`TVDetails.tsx` line 260): `Math.max(1, Math.floor((duration - watched)/60))`. -/
def tvRemainingMinutes (pr : ProgressPair) : Int :=
  max 1 ⌊(pr.duration - pr.watched) / 60⌋

/-- The remaining-time badge text of `TVDetails.tsx` lines 258–261. -/
def tvRemainingBadge (pr : ProgressPair) : String :=
  toString (tvRemainingMinutes pr) ++ "m left"

/-- `isUpcoming` (`TVDetails.tsx` lines 180–181, `CustomVideoPlayer.tsx` lines
555–556, `EpisodeSelector.tsx` lines 276–277): an episode is upcoming exactly
when it has an air date parsing to a time strictly later than now.  Dates are
modelled as timestamps; `none` covers both a missing and an unparsable
`air_date`.  The episode button is rendered with `disabled={isUpcoming}`. -/
def isUpcoming (airDate : Option Int) (now : Int) : Bool :=
  match airDate with
  | some a => decide (now < a)
  | none => false

/-- `disabled={isUpcoming}` on the episode buttons. -/
def episodeDisabled (airDate : Option Int) (now : Int) : Bool :=
  isUpcoming airDate now

/-! Concrete fixtures used by witnesses, counterexamples and scenario runs. -/

def srcA : BackendSource := ⟨"a", "mp4", "720p", "p1"⟩

def srcB : BackendSource := ⟨"b", "hls", "HD", "p2"⟩

def srcC : BackendSource := ⟨"c", "hls", "1080p", "p3"⟩

/-- Three candidate sources for the exhaustion scenario. -/
def cexSources : List BackendSource := [srcA, srcB, srcC]

def demo720 : BackendSource := ⟨"u1", "mp4", "720p", "pA"⟩

def demoHD : BackendSource := ⟨"u2", "hls", "HD", "pB"⟩

def demo1080 : BackendSource := ⟨"u3", "hls", "1080p", "pC"⟩

/-- The candidate list `[{quality:"720p"},{quality:"HD"},{quality:"1080p"}]`. -/
def demoSources : List BackendSource := [demo720, demoHD, demo1080]

/-- History entry at the completion boundary: 89 of 100 seconds watched. -/
def item89 : WatchHistoryItem := ⟨1, "tv", 1, 1, some ⟨89, 100⟩, false⟩

/-- History entry at the completion boundary: 90 of 100 seconds watched. -/
def item90 : WatchHistoryItem := ⟨1, "tv", 1, 1, some ⟨90, 100⟩, false⟩

/-- History entry with 3599 of 3600 seconds watched. -/
def cexItem : WatchHistoryItem := ⟨7, "tv", 1, 1, some ⟨3599, 3600⟩, false⟩

/-- A player state with a known (loaded) duration of 100 seconds. -/
def stDemo : PlayerState :=
  { currentSource := none, triedSources := [], isLoading := false, progress := 0
    duration := 100, currentTime := 0, hlsClient := none, videoSrc := ""
    showQuality := false }

/-! Theorems. -/

/-- The fallback pick always comes from the remaining (untried, non-current)
candidates. -/
theorem selectNext_mem {sources : List BackendSource} {tried : List String}
    {curUrl : String} {x : BackendSource}
    (h : selectNextSource sources tried curUrl = some x) :
    x ∈ remainingSources sources tried curUrl := by
  unfold selectNextSource at h
  cases hf : (remainingSources sources tried curUrl).find?
      (fun s => formatQuality s.quality == "HD") with
  | some s =>
    rw [hf] at h
    cases h
    exact List.mem_of_find?_eq_some hf
  | none =>
    rw [hf] at h
    cases hg : (remainingSources sources tried curUrl).find?
        (fun s => formatQuality s.quality == "1080p") with
    | some s =>
      rw [hg] at h
      cases h
      exact List.mem_of_find?_eq_some hg
    | none =>
      rw [hg] at h
      cases hrem : remainingSources sources tried curUrl with
      | nil => rw [hrem] at h; simp at h
      | cons a l =>
        rw [hrem] at h
        simp only [List.head?, Option.some.injEq] at h
        subst h
        exact List.mem_cons_self a l

/-- Claim C1: the automatic fallback selection of the fatal-error handler is a
function of the candidate list, the tried-set and the failing url; it never
picks a url in the tried-set nor the failing url, and it picks the first
remaining source normalizing to "HD", else the first normalizing to "1080p",
else the first remaining source in list order.  The last conjunct ties the
selection to the handler itself. -/
theorem fallback_never_reselects (sources : List BackendSource)
    (tried : List String) (curUrl : String) :
    (∀ s, selectNextSource sources tried curUrl = some s →
        tried.contains s.url = false ∧ s.url ≠ curUrl ∧ s ∈ sources)
    ∧ ((∃ s ∈ remainingSources sources tried curUrl,
          formatQuality s.quality = "HD") →
        selectNextSource sources tried curUrl =
          (remainingSources sources tried curUrl).find?
            (fun s => formatQuality s.quality == "HD"))
    ∧ ((∀ s ∈ remainingSources sources tried curUrl,
          formatQuality s.quality ≠ "HD") →
        (∃ s ∈ remainingSources sources tried curUrl,
          formatQuality s.quality = "1080p") →
        selectNextSource sources tried curUrl =
          (remainingSources sources tried curUrl).find?
            (fun s => formatQuality s.quality == "1080p"))
    ∧ ((∀ s ∈ remainingSources sources tried curUrl,
          formatQuality s.quality ≠ "HD") →
        (∀ s ∈ remainingSources sources tried curUrl,
          formatQuality s.quality ≠ "1080p") →
        selectNextSource sources tried curUrl =
          (remainingSources sources tried curUrl).head?)
    ∧ (∀ st : PlayerState, ∀ cur, st.currentSource = some cur →
        (handleError sources st).currentSource =
          match selectNextSource sources st.triedSources cur.url with
          | some s => some s
          | none => some cur) := by
  refine ⟨?safe, ?hd, ?p1080, ?first, ?handler⟩
  case safe =>
    intro s hs
    have hmem := selectNext_mem hs
    have := List.mem_filter.mp hmem
    obtain ⟨hmemS, hpred⟩ := this
    simp only [Bool.and_eq_true, Bool.not_eq_true', bne_iff_ne, ne_eq] at hpred
    exact ⟨hpred.1, hpred.2, hmemS⟩
  case hd =>
    rintro ⟨s, hsmem, hsq⟩
    have hsome : ((remainingSources sources tried curUrl).find?
        (fun s => formatQuality s.quality == "HD")).isSome := by
      rw [List.find?_isSome]
      exact ⟨s, hsmem, by simp [hsq]⟩
    obtain ⟨t, ht⟩ := Option.isSome_iff_exists.mp hsome
    unfold selectNextSource
    rw [ht]
  case p1080 =>
    intro hnohd
    rintro ⟨s, hsmem, hsq⟩
    have hfhd : (remainingSources sources tried curUrl).find?
        (fun s => formatQuality s.quality == "HD") = none := by
      rw [List.find?_eq_none]
      intro x hx
      simp [hnohd x hx]
    have hsome : ((remainingSources sources tried curUrl).find?
        (fun s => formatQuality s.quality == "1080p")).isSome := by
      rw [List.find?_isSome]
      exact ⟨s, hsmem, by simp [hsq]⟩
    obtain ⟨t, ht⟩ := Option.isSome_iff_exists.mp hsome
    unfold selectNextSource
    rw [hfhd, ht]
  case first =>
    intro hnohd hno1080
    have hfhd : (remainingSources sources tried curUrl).find?
        (fun s => formatQuality s.quality == "HD") = none := by
      rw [List.find?_eq_none]
      intro x hx
      simp [hnohd x hx]
    have hf1080 : (remainingSources sources tried curUrl).find?
        (fun s => formatQuality s.quality == "1080p") = none := by
      rw [List.find?_eq_none]
      intro x hx
      simp [hno1080 x hx]
    unfold selectNextSource
    rw [hfhd, hf1080]
  case handler =>
    intro st cur hcur
    unfold handleError
    rw [hcur]

/-- Witness for C1 at a concrete input: with candidates `cexSources`, tried-set
`["b"]` and failing url `"c"`, the handler picks `srcA`, whose url is untried
and differs from the failing one. -/
theorem fallback_never_reselects_witness :
    (["b"] : List String).contains srcA.url = false ∧ srcA.url ≠ "c"
      ∧ srcA ∈ cexSources :=
  (fallback_never_reselects cexSources ["b"] "c").1 srcA (by decide)

/-- Claim C2, run on the code: with the three candidates `cexSources` the
initial pick is the "HD" source `srcB`; after the first fatal error the
"1080p" source `srcC` is selected, after the second the third untried
candidate `srcA` is selected, and after the third fatal error no further
selection is attempted (the failed source stays current, its url joins the
tried-set) — but the handler merely clears the loading flag: the component
has no error state to surface, contradicting the terminal playback
error state the claim requires. -/
theorem fallback_exhaustion_terminal (hlsSupported nativeHls : Bool) :
    (mountState cexSources).currentSource = some srcB
    ∧ (failStep hlsSupported nativeHls cexSources
        (mountState cexSources)).currentSource = some srcC
    ∧ (failStep hlsSupported nativeHls cexSources
        (failStep hlsSupported nativeHls cexSources
          (mountState cexSources))).currentSource = some srcA
    ∧ (failStep hlsSupported nativeHls cexSources
        (failStep hlsSupported nativeHls cexSources
          (failStep hlsSupported nativeHls cexSources
            (mountState cexSources)))).currentSource = some srcA
    ∧ (failStep hlsSupported nativeHls cexSources
        (failStep hlsSupported nativeHls cexSources
          (failStep hlsSupported nativeHls cexSources
            (mountState cexSources)))).triedSources = ["b", "c", "a"]
    ∧ (failStep hlsSupported nativeHls cexSources
        (failStep hlsSupported nativeHls cexSources
          (failStep hlsSupported nativeHls cexSources
            (mountState cexSources)))).isLoading = false := by
  cases hlsSupported <;> cases nativeHls <;> decide

/-- Claim C3, run on the code: `formatQuality` is a pure total function and
maps "2160p" to "4K", "Up to HD" to "HD" and "720" to "720p" as the spec
states, but maps the empty string to "Auto", not "SD": the guard
`if (!quality) return "Auto"` fires first, leaving the intended
`lower === "" → "SD"` branch unreachable. -/
theorem formatQuality_spec_points :
    formatQuality "2160p" = "4K" ∧ formatQuality "Up to HD" = "HD"
      ∧ formatQuality "720" = "720p" ∧ formatQuality "" = "Auto" := by
  decide

/-- Claim C4: on a non-empty candidate list some source is selected, and the
selection is the first source normalizing to "HD", else the first normalizing
to "1080p", else the first source of the list. -/
theorem initialSource_prefers_hd (sources : List BackendSource)
    (h : sources ≠ []) :
    (∃ s, initialSource sources = some s)
    ∧ ((∃ s ∈ sources, formatQuality s.quality = "HD") →
        initialSource sources =
          sources.find? (fun s => formatQuality s.quality == "HD"))
    ∧ ((∀ s ∈ sources, formatQuality s.quality ≠ "HD") →
        (∃ s ∈ sources, formatQuality s.quality = "1080p") →
        initialSource sources =
          sources.find? (fun s => formatQuality s.quality == "1080p"))
    ∧ ((∀ s ∈ sources, formatQuality s.quality ≠ "HD") →
        (∀ s ∈ sources, formatQuality s.quality ≠ "1080p") →
        initialSource sources = sources.head?) := by
  refine ⟨?total, ?hd, ?p1080, ?first⟩
  case total =>
    unfold initialSource
    cases hf : sources.find? (fun s => formatQuality s.quality == "HD") with
    | some s => exact ⟨s, rfl⟩
    | none =>
      cases hg : sources.find? (fun s => formatQuality s.quality == "1080p") with
      | some s => exact ⟨s, rfl⟩
      | none =>
        cases sources with
        | nil => exact absurd rfl h
        | cons a l => exact ⟨a, rfl⟩
  case hd =>
    rintro ⟨s, hsmem, hsq⟩
    have hsome : (sources.find? (fun s => formatQuality s.quality == "HD")).isSome := by
      rw [List.find?_isSome]
      exact ⟨s, hsmem, by simp [hsq]⟩
    obtain ⟨t, ht⟩ := Option.isSome_iff_exists.mp hsome
    unfold initialSource
    rw [ht]
  case p1080 =>
    intro hnohd
    rintro ⟨s, hsmem, hsq⟩
    have hfhd : sources.find? (fun s => formatQuality s.quality == "HD") = none := by
      rw [List.find?_eq_none]
      intro x hx
      simp [hnohd x hx]
    have hsome : (sources.find? (fun s => formatQuality s.quality == "1080p")).isSome := by
      rw [List.find?_isSome]
      exact ⟨s, hsmem, by simp [hsq]⟩
    obtain ⟨t, ht⟩ := Option.isSome_iff_exists.mp hsome
    unfold initialSource
    rw [hfhd, ht]
  case first =>
    intro hnohd hno1080
    have hfhd : sources.find? (fun s => formatQuality s.quality == "HD") = none := by
      rw [List.find?_eq_none]
      intro x hx
      simp [hnohd x hx]
    have hf1080 : sources.find? (fun s => formatQuality s.quality == "1080p") = none := by
      rw [List.find?_eq_none]
      intro x hx
      simp [hno1080 x hx]
    unfold initialSource
    rw [hfhd, hf1080]

/-- Witness for C4 on the concrete candidate list
`[{quality:"720p"},{quality:"HD"},{quality:"1080p"}]`: the "HD" one wins. -/
theorem initialSource_prefers_hd_witness :
    demoSources ≠ [] ∧ initialSource demoSources = some demoHD := by
  refine ⟨by decide, ?_⟩
  have h := (initialSource_prefers_hd demoSources (by decide)).2.1
    ⟨demoHD, by decide, by decide⟩
  rw [h]
  decide

/-- Claim C5: wherever `getEpisodeProgress` reports on a record with positive
duration — the in-session resume record or a matching persisted history
entry — the episode counts as completed exactly when the explicit completed
flag is set or at least 90% has been watched. -/
theorem episode_completion_threshold (resume : Option ResumeInfo)
    (wh : List WatchHistoryItem) (tvId sn en : Int) :
    (∀ r : ResumeInfo, resume = some r →
        (r.id == tvId && r.season == sn && r.episode == en) = true →
        0 < r.duration →
        ∃ v, getEpisodeProgress resume wh tvId sn en = some v ∧
          (v.isCompleted = true ↔
            (r.isCompleted = true ∨ (9 : ℚ)/10 ≤ r.timestamp / r.duration)))
    ∧ (∀ (item : WatchHistoryItem) (pr : ProgressPair), resume = none →
        wh.find? (histPred tvId sn en) = some item →
        item.progress = some pr →
        0 < pr.duration →
        ∃ v, getEpisodeProgress resume wh tvId sn en = some v ∧
          (v.isCompleted = true ↔
            (item.isCompleted = true ∨ (9 : ℚ)/10 ≤ pr.watched / pr.duration))) := by
  constructor
  · intro r hr hmatch _
    subst hr
    have hv : getEpisodeProgress (some r) wh tvId sn en = some
        { progress := r.timestamp / r.duration * 100
          isCompleted := r.isCompleted
            || decide ((9 : ℚ)/10 ≤ r.timestamp / r.duration)
          isWatching := !r.isCompleted && decide ((0 : ℚ) < r.timestamp)
          remainingTime :=
            formatDuration (some ⌊(r.duration - r.timestamp) / 60⌋) } := by
      simp [getEpisodeProgress, hmatch]
    refine ⟨_, hv, ?_⟩
    simp [Bool.or_eq_true, decide_eq_true_eq]
  · intro item pr hres hfind hpr _
    subst hres
    have hv : getEpisodeProgress none wh tvId sn en = some
        { progress := pr.watched / pr.duration * 100
          isCompleted := item.isCompleted
            || decide ((9 : ℚ)/10 ≤ pr.watched / pr.duration)
          isWatching := !item.isCompleted && decide ((0 : ℚ) < pr.watched)
          remainingTime :=
            formatDuration (some ⌊(max 0 (pr.duration - pr.watched)) / 60⌋) } := by
      simp [getEpisodeProgress, hfind, hpr]
    refine ⟨_, hv, ?_⟩
    simp [Bool.or_eq_true, decide_eq_true_eq]

/-- Witness for C5 at the exact boundary: a history entry with 89 of 100
seconds watched is not completed, one with 90 of 100 seconds is. -/
theorem episode_completion_threshold_witness :
    (∃ v, getEpisodeProgress none [item89] 1 1 1 = some v
      ∧ v.isCompleted = false)
    ∧ (∃ v, getEpisodeProgress none [item90] 1 1 1 = some v
      ∧ v.isCompleted = true) := by
  constructor
  · obtain ⟨v, hv, hiff⟩ :=
      (episode_completion_threshold none [item89] 1 1 1).2 item89 ⟨89, 100⟩
        rfl (by simp [histPred, item89, List.find?]) rfl (by norm_num)
    refine ⟨v, hv, ?_⟩
    have hno : ¬ (item89.isCompleted = true ∨ (9 : ℚ)/10 ≤ 89 / 100) := by
      simp [item89]
      norm_num
    cases hb : v.isCompleted
    · rfl
    · exact absurd (hiff.mp hb) hno
  · obtain ⟨v, hv, hiff⟩ :=
      (episode_completion_threshold none [item90] 1 1 1).2 item90 ⟨90, 100⟩
        rfl (by simp [histPred, item90, List.find?]) rfl (by norm_num)
    refine ⟨v, hv, hiff.mpr (Or.inr ?_)⟩
    norm_num

/-- Counterexample to claim C6 as stated: the episode selector is one of the
surfaces displaying remaining time, and for a history entry with
duration = 3600 and watched = 3599 it displays no remaining time at all
(`formatDuration` returns nothing on a zero minute count) instead of the
claimed "1m left". -/
theorem remaining_time_formula_cex :
    (getEpisodeProgress none [cexItem] 7 1 1).map EpisodeProgressView.remainingTime
      = some none := by
  simp [getEpisodeProgress, histPred, formatDuration, cexItem, List.find?]
  norm_num

/-- Claim C6 as amended: on the TV details page the remaining-time badge
equals `max(1, ⌊(duration − watched)/60⌋)` minutes — at least one minute,
never zero or negative — and shows "1m left" at duration = 3600,
watched = 3599; the episode selector instead formats whole remaining minutes
and shows no remaining-time badge when less than a minute remains. -/
theorem remaining_time_display (pr : ProgressPair) (wh : List WatchHistoryItem)
    (tvId sn en : Int) (item : WatchHistoryItem) :
    1 ≤ tvRemainingMinutes pr
    ∧ tvRemainingBadge ⟨3599, 3600⟩ = "1m left"
    ∧ (wh.find? (histPred tvId sn en) = some item →
        item.progress = some pr →
        pr.duration - pr.watched < 60 →
        ∃ v, getEpisodeProgress none wh tvId sn en = some v
          ∧ v.remainingTime = none) := by
  refine ⟨le_max_left 1 _, ?badge, ?selector⟩
  case badge =>
    have h1 : tvRemainingMinutes ⟨3599, 3600⟩ = 1 := by
      unfold tvRemainingMinutes
      norm_num
    unfold tvRemainingBadge
    rw [h1]
    decide
  case selector =>
    intro hfind hpr hlt
    have hfloor : ⌊(max 0 (pr.duration - pr.watched)) / 60⌋ = 0 := by
      rw [Int.floor_eq_zero_iff]
      constructor
      · positivity
      · rw [div_lt_one (by norm_num : (0:ℚ) < 60)]
        exact max_lt (by norm_num) hlt
    have hv : getEpisodeProgress none wh tvId sn en = some
        { progress := pr.watched / pr.duration * 100
          isCompleted := item.isCompleted
            || decide ((9 : ℚ)/10 ≤ pr.watched / pr.duration)
          isWatching := !item.isCompleted && decide ((0 : ℚ) < pr.watched)
          remainingTime :=
            formatDuration (some ⌊(max 0 (pr.duration - pr.watched)) / 60⌋) } := by
      simp [getEpisodeProgress, hfind, hpr]
    refine ⟨_, hv, ?_⟩
    simp [formatDuration, hfloor]

/-- Witness for the amended C6: at duration = 3600, watched = 3599 the TV
details badge is at least one minute and reads "1m left", while the episode
selector shows no remaining-time badge. -/
theorem remaining_time_display_witness :
    1 ≤ tvRemainingMinutes ⟨3599, 3600⟩
    ∧ tvRemainingBadge ⟨3599, 3600⟩ = "1m left"
    ∧ (∃ v, getEpisodeProgress none [cexItem] 7 1 1 = some v
        ∧ v.remainingTime = none) := by
  obtain ⟨h1, h2, h3⟩ :=
    remaining_time_display ⟨3599, 3600⟩ [cexItem] 7 1 1 cexItem
  exact ⟨h1, h2,
    h3 (by simp [histPred, cexItem, List.find?]) rfl (by norm_num)⟩

/-- Claim C7: an episode is disabled for selection exactly when its air date
is strictly later than the current time; an episode airing exactly now, in
the past, or with no (parsable) air date stays selectable. -/
theorem upcoming_gating (airDate : Option Int) (now t : Int) :
    (episodeDisabled airDate now = true ↔ ∃ a, airDate = some a ∧ now < a)
    ∧ episodeDisabled (some now) now = false
    ∧ (t ≤ now → episodeDisabled (some t) now = false)
    ∧ episodeDisabled none now = false := by
  refine ⟨?iff, ?eqnow, ?past, ?absent⟩
  case iff =>
    cases airDate with
    | none => simp [episodeDisabled, isUpcoming]
    | some a => simp [episodeDisabled, isUpcoming]
  case eqnow => simp [episodeDisabled, isUpcoming]
  case past =>
    intro ht
    simp [episodeDisabled, isUpcoming]
    omega
  case absent => simp [episodeDisabled, isUpcoming]

/-- Witness for C7 at concrete times: air date one unit ahead is disabled;
air date equal to now, in the past, or absent is selectable. -/
theorem upcoming_gating_witness :
    episodeDisabled (some 6) 5 = true
    ∧ episodeDisabled (some 5) 5 = false
    ∧ episodeDisabled (some 4) 5 = false
    ∧ episodeDisabled none 5 = false := by
  obtain ⟨hiff, heq, hpast, habsent⟩ := upcoming_gating (some 6) 5 4
  exact ⟨hiff.mpr ⟨6, rfl, by norm_num⟩, heq, hpast (by norm_num), habsent⟩

/-- Claim C8: a user-requested quality switch sets the chosen source and the
subsequent attachment destroys the existing adaptive-streaming client (exactly
when one exists), sets the loading flag, resets the displayed progress to 0
and installs the new source, while the tried-set is untouched. -/
theorem quality_switch_fresh_attach (hlsSupported nativeHls : Bool)
    (st : PlayerState) (src : BackendSource) :
    (attachEffect hlsSupported nativeHls (selectQuality st src)).1.currentSource
        = some src
    ∧ (attachEffect hlsSupported nativeHls (selectQuality st src)).1.triedSources
        = st.triedSources
    ∧ (attachEffect hlsSupported nativeHls (selectQuality st src)).1.isLoading
        = true
    ∧ (attachEffect hlsSupported nativeHls (selectQuality st src)).1.progress
        = 0
    ∧ (attachEffect hlsSupported nativeHls (selectQuality st src)).2
        = st.hlsClient.isSome
    ∧ (attachEffect hlsSupported nativeHls (selectQuality st src)).1.hlsClient
        = (if src.type == "hls" && hlsSupported then some src.url else none) := by
  cases hlsSupported <;> cases nativeHls <;>
    by_cases h : src.type == "hls" <;>
      simp [attachEffect, selectQuality, h]

/-- Claim C9: a click on the progress bar is a no-op while the duration is
unknown; otherwise it clamps the click fraction to `[0,1]` and seeks to
`fraction × duration`, updating the displayed percentage accordingly. -/
theorem progress_bar_click (st : PlayerState) (clientX rectLeft rectWidth : ℚ) :
    (st.duration = 0 → handleProgressBarClick st clientX rectLeft rectWidth = st)
    ∧ (st.duration ≠ 0 → 0 < rectWidth →
        ∃ p : ℚ, p = max 0 (min ((clientX - rectLeft) / rectWidth) 1)
          ∧ 0 ≤ p ∧ p ≤ 1
          ∧ handleProgressBarClick st clientX rectLeft rectWidth =
              { st with currentTime := p * st.duration, progress := p * 100 }) := by
  constructor
  · intro h
    simp [handleProgressBarClick, h]
  · intro h _
    refine ⟨_, rfl, le_max_left _ _, ?_, ?_⟩
    · exact max_le (by norm_num) (min_le_right _ _)
    · simp [handleProgressBarClick, h]

/-- Witness for C9: with duration 100, a click at the middle of the bar seeks
to 50 and shows 50%; with duration 0 the same click changes nothing. -/
theorem progress_bar_click_witness :
    (handleProgressBarClick stDemo 50 0 100).currentTime = 50
    ∧ (handleProgressBarClick stDemo 50 0 100).progress = 50
    ∧ handleProgressBarClick { stDemo with duration := 0 } 50 0 100
        = { stDemo with duration := 0 } := by
  obtain ⟨p, hp, -, -, hres⟩ :=
    (progress_bar_click stDemo 50 0 100).2 (by norm_num [stDemo]) (by norm_num)
  have hpval : p = 1/2 := by
    rw [hp]
    norm_num
  refine ⟨?_, ?_, ?_⟩
  · rw [hres, hpval]
    norm_num [stDemo]
  · rw [hres, hpval]
    norm_num
  · exact (progress_bar_click { stDemo with duration := 0 } 50 0 100).1 rfl

/-- Claim C10: the timing-update handler emits to the history collaborator
only under a defined (non-NaN) nonzero duration; since media durations are
nonnegative, every emitted pair has strictly positive duration and the
displayed percentage `currentTime / duration * 100` is well defined. -/
theorem onprogress_duration_positive (videoTime : ℚ) (videoDuration : Option ℚ)
    (st : PlayerState)
    (hnn : ∀ q : ℚ, videoDuration = some q → 0 ≤ q) :
    (∀ pr : ℚ × ℚ, (handleTimeUpdate videoTime videoDuration st).2 = some pr →
        pr.1 = videoTime ∧ 0 < pr.2
          ∧ (handleTimeUpdate videoTime videoDuration st).1.progress
              = pr.1 / pr.2 * 100)
    ∧ ((handleTimeUpdate videoTime videoDuration st).2 = none ↔
        videoDuration = none ∨ videoDuration = some 0) := by
  cases videoDuration with
  | none =>
    constructor
    · intro pr hpr
      simp [handleTimeUpdate] at hpr
    · simp [handleTimeUpdate]
  | some d =>
    by_cases hd : d = 0
    · subst hd
      constructor
      · intro pr hpr
        simp [handleTimeUpdate] at hpr
      · simp [handleTimeUpdate]
    · constructor
      · intro pr hpr
        simp [handleTimeUpdate, hd] at hpr
        subst hpr
        refine ⟨rfl, lt_of_le_of_ne (hnn d rfl) (Ne.symm hd), ?_⟩
        simp [handleTimeUpdate, hd]
      · simp [handleTimeUpdate, hd]

/-- Witness for C10: at currentTime 30 and duration 60 the pair (30, 60) is
emitted, its duration is positive, and the shown percentage is 50. -/
theorem onprogress_duration_positive_witness :
    (handleTimeUpdate 30 (some 60) stDemo).2 = some (30, 60)
    ∧ 0 < (((30 : ℚ), (60 : ℚ)) : ℚ × ℚ).2
    ∧ (handleTimeUpdate 30 (some 60) stDemo).1.progress = 30 / 60 * 100 := by
  have hemit : (handleTimeUpdate 30 (some 60) stDemo).2 = some (30, 60) := by
    norm_num [handleTimeUpdate]
  have h := (onprogress_duration_positive 30 (some 60) stDemo
      (by intro q hq; cases hq; norm_num)).1 (30, 60) hemit
  exact ⟨hemit, h.2.1, h.2.2⟩
